import Mathlib

/-!
Shallow embedding of the pinball simulation (`src/pinball.py`) and proofs
about it.  Machine floats are modelled as real numbers; the Python code's
literal epsilon guards (`1e-9`) are kept.  Cosmetic state (trails, particle
effects, drawing) is omitted: no claim refers to it and the code never reads
it back into physics, scoring or game state.
-/

noncomputable section

namespace Pinball

/-- Planar vector with real coordinates, modelling `pygame.math.Vector2`. -/
structure Vec2 where
  x : ℝ
  y : ℝ

namespace Vec2

instance : Add Vec2 := ⟨fun u v => ⟨u.x + v.x, u.y + v.y⟩⟩

instance : Sub Vec2 := ⟨fun u v => ⟨u.x - v.x, u.y - v.y⟩⟩

instance : Neg Vec2 := ⟨fun v => ⟨-v.x, -v.y⟩⟩

instance : SMul ℝ Vec2 := ⟨fun c v => ⟨c * v.x, c * v.y⟩⟩

instance : Zero Vec2 := ⟨⟨0, 0⟩⟩

/-- Dot product, `Vector2.dot`. -/
def dot (u v : Vec2) : ℝ := u.x * v.x + u.y * v.y

/-- Squared euclidean length, `Vector2.length_squared`. -/
def lengthSq (v : Vec2) : ℝ := dot v v

/-- Euclidean length, `Vector2.length`. -/
def length (v : Vec2) : ℝ := Real.sqrt (lengthSq v)

@[simp] theorem add_x (u v : Vec2) : (u + v).x = u.x + v.x := rfl

@[simp] theorem add_y (u v : Vec2) : (u + v).y = u.y + v.y := rfl

@[simp] theorem sub_x (u v : Vec2) : (u - v).x = u.x - v.x := rfl

@[simp] theorem sub_y (u v : Vec2) : (u - v).y = u.y - v.y := rfl

@[simp] theorem smul_x (c : ℝ) (v : Vec2) : (c • v).x = c * v.x := rfl

@[simp] theorem smul_y (c : ℝ) (v : Vec2) : (c • v).y = c * v.y := rfl

@[simp] theorem zero_x : (0 : Vec2).x = 0 := rfl

@[simp] theorem zero_y : (0 : Vec2).y = 0 := rfl

@[simp] theorem mk_x (a b : ℝ) : (Vec2.mk a b).x = a := rfl

@[simp] theorem mk_y (a b : ℝ) : (Vec2.mk a b).y = b := rfl

theorem ext_iff {u v : Vec2} : u = v ↔ u.x = v.x ∧ u.y = v.y := by
  constructor
  · intro h; subst h; exact ⟨rfl, rfl⟩
  · intro ⟨hx, hy⟩; cases u; cases v; simp_all

@[simp] theorem mk_eq_mk {a b c d : ℝ} : Vec2.mk a b = Vec2.mk c d ↔ a = c ∧ b = d := by
  simp [ext_iff]

theorem lengthSq_nonneg (v : Vec2) : 0 ≤ v.lengthSq := by
  unfold lengthSq dot; nlinarith [sq_nonneg v.x, sq_nonneg v.y]

theorem length_nonneg (v : Vec2) : 0 ≤ v.length := Real.sqrt_nonneg _

/-- Length of a scalar multiple. -/
theorem length_smul (c : ℝ) (v : Vec2) : (c • v).length = |c| * v.length := by
  unfold length lengthSq dot
  have h : (c • v).x * (c • v).x + (c • v).y * (c • v).y
      = c ^ 2 * (v.x * v.x + v.y * v.y) := by simp; ring
  rw [h, Real.sqrt_mul (sq_nonneg c), Real.sqrt_sq_eq_abs]

/-- The length squared is the square of the length. -/
theorem lengthSq_eq_sq_length (v : Vec2) : v.lengthSq = v.length ^ 2 := by
  unfold length
  rw [Real.sq_sqrt (lengthSq_nonneg v)]

/-- The length dominates the absolute value of the y coordinate. -/
theorem abs_y_le_length (v : Vec2) : |v.y| ≤ v.length := by
  unfold length lengthSq dot
  rw [show |v.y| = Real.sqrt (v.y ^ 2) from (Real.sqrt_sq_eq_abs v.y).symm]
  apply Real.sqrt_le_sqrt
  nlinarith [sq_nonneg v.x]

theorem dot_sub_smul (v n : Vec2) (c : ℝ) : dot (v - c • n) n = dot v n - c * dot n n := by
  unfold dot; simp; ring

end Vec2

/-! Configuration constants of `src/pinball.py` (lines 13-47). -/

def WIDTH : ℝ := 500

def HEIGHT : ℝ := 650

def GRAVITY : ℝ := 2000.0

def AIR_FRICTION : ℝ := 0.0005

def RESTI_BALL_WALL : ℝ := 0.85

def RESTI_BALL_BUMPER : ℝ := 1.05

def RESTI_BALL_FLIPPER : ℝ := 1.0

def TANGENTIAL_FRICTION : ℝ := 0.02

def MAX_BALL_SPEED : ℝ := 2400.0

def BALL_RADIUS : ℝ := 12

def BALL_MASS : ℝ := 1.0

/-- Python's `math.radians`. -/
def radians (x : ℝ) : ℝ := x * Real.pi / 180

def FLIPPER_LENGTH : ℝ := 140

def FLIPPER_SPEED : ℝ := radians 900

def FLIPPER_LEFT_MIN : ℝ := radians 15

def FLIPPER_LEFT_MAX : ℝ := radians 70

def FLIPPER_RIGHT_MIN : ℝ := -radians 70

def FLIPPER_RIGHT_MAX : ℝ := -radians 15

def PLUNGER_MAX : ℝ := 480.0

def PLUNGER_CHARGE_RATE : ℝ := 900.0

def START_BALLS : ℤ := 3

def BALL_SAVE_TIME : ℝ := 8.0

def NUDGE_IMPULSE : ℝ := 260.0

def TILT_MAX : ℝ := 3

def TILT_DECAY : ℝ := 0.4

def TILT_LOCKOUT : ℝ := 4.0

/-- `clamp(x, lo, hi)` = `max(lo, min(hi, x))` (line 56). -/
def clamp (x lo hi : ℝ) : ℝ := max lo (min hi x)

/-- `reflect(v, n, restitution)` (lines 60-64): mirror the normal component of
`v`, scaled by the restitution, when `v` moves into the surface. -/
def reflect (v n : Vec2) (restitution : ℝ) : Vec2 :=
  if Vec2.dot v n < 0 then v - ((1.0 + restitution) * Vec2.dot v n) • n else v

/-- Result record of `circle_line_collision` (lines 67-87): the returned tuple
`(hit, push_vec, normal, closest_point, t)`. -/
structure SegHit where
  hit : Bool
  push : Vec2
  n : Vec2
  closest : Vec2
  t : ℝ

/-- `circle_line_collision(c, r, a, b)` (lines 67-87). -/
def circle_line_collision (c : Vec2) (r : ℝ) (a b : Vec2) : SegHit :=
  let ab := b - a
  let ab2 := ab.lengthSq
  if ab2 = 0 then
    let diff := c - a
    let dist := diff.length + 1e-9
    if dist < r then
      let n := dist⁻¹ • diff
      ⟨true, (r - dist) • n, n, a, 0.0⟩
    else ⟨false, 0, 0, 0, 0.0⟩
  else
    let t := clamp (Vec2.dot (c - a) ab / ab2) 0.0 1.0
    let closest := a + t • ab
    let diff := c - closest
    let dist := diff.length + 1e-9
    if dist < r then
      let n := dist⁻¹ • diff
      ⟨true, (r - dist) • n, n, closest, t⟩
    else ⟨false, 0, 0, closest, t⟩

/-- Result record of `circle_circle_collision` (lines 90-97). -/
structure CircHit where
  hit : Bool
  push : Vec2
  n : Vec2

/-- `circle_circle_collision(c1, r1, c2, r2)` (lines 90-97). -/
def circle_circle_collision (c1 : Vec2) (r1 : ℝ) (c2 : Vec2) (r2 : ℝ) : CircHit :=
  let diff := c1 - c2
  let d := diff.length + 1e-9
  if d < r1 + r2 then
    let n := d⁻¹ • diff
    ⟨true, (r1 + r2 - d) • n, n⟩
  else ⟨false, 0, 0⟩

/-- C2: `reflect` with a unit normal follows the reflection law: for an
incoming velocity (negative normal component `vn`), the result is
`v - (1+e)*vn*n` and the outgoing normal speed is `e * (-vn)`; a velocity
not moving into the surface is returned unchanged. -/
theorem reflect_law (v n : Vec2) (e : ℝ) (hn : n.length = 1) :
    (Vec2.dot v n < 0 →
      reflect v n e = v - ((1.0 + e) * Vec2.dot v n) • n ∧
      Vec2.dot (reflect v n e) n = e * (-(Vec2.dot v n))) ∧
    (0 ≤ Vec2.dot v n → reflect v n e = v) := by
  have hnn : Vec2.dot n n = 1 := by
    have h1 : n.lengthSq = 1 := by
      rw [Vec2.lengthSq_eq_sq_length, hn]; norm_num
    simpa [Vec2.lengthSq] using h1
  constructor
  · intro hv
    constructor
    · simp [reflect, hv]
    · rw [reflect, if_pos hv, Vec2.dot_sub_smul, hnn]
      ring
  · intro hv
    rw [reflect, if_neg (not_lt.mpr hv)]

/-- Witness for C2 at the concrete unit normal `(0, 1)`. -/
theorem reflect_law_witness :
    reflect (Vec2.mk 3 (-4)) (Vec2.mk 0 1) 0.5
        = Vec2.mk 3 (-4) - ((1.0 + 0.5) * Vec2.dot (Vec2.mk 3 (-4)) (Vec2.mk 0 1)) • Vec2.mk 0 1 ∧
      Vec2.dot (reflect (Vec2.mk 3 (-4)) (Vec2.mk 0 1) 0.5) (Vec2.mk 0 1)
        = 0.5 * (-(Vec2.dot (Vec2.mk 3 (-4)) (Vec2.mk 0 1))) := by
  have hn : (Vec2.mk 0 1).length = 1 := by
    unfold Vec2.length Vec2.lengthSq Vec2.dot
    norm_num
  have hv : Vec2.dot (Vec2.mk 3 (-4)) (Vec2.mk 0 1) < 0 := by
    unfold Vec2.dot; norm_num
  exact (reflect_law (Vec2.mk 3 (-4)) (Vec2.mk 0 1) 0.5 hn).1 hv

/-- The ball's dynamic state (`Ball.__init__`, lines 218-225); the cosmetic
trail deque is omitted. -/
structure Ball where
  pos : Vec2
  vel : Vec2
  radius : ℝ
  in_play : Bool

/-- The velocity after the gravity and air-drag stages of
`Ball.apply_physics` (lines 230-233), before the speed clamp. -/
def Ball.velAfterDrag (b : Ball) (dt : ℝ) : Vec2 :=
  ((1.0 - AIR_FRICTION) ^ (dt * 60.0) : ℝ) • Vec2.mk b.vel.x (b.vel.y + GRAVITY * dt)

/-- `Ball.apply_physics(dt)` (lines 227-240): gravity, drag, speed clamp and
position integration, only while `in_play`. -/
def Ball.applyPhysics (b : Ball) (dt : ℝ) : Ball :=
  if b.in_play = false then b
  else
    let v2 := b.velAfterDrag dt
    let sp := v2.length
    let v3 := if MAX_BALL_SPEED < sp then (MAX_BALL_SPEED / sp) • v2 else v2
    { b with vel := v3, pos := b.pos + dt • v3 }

/-- C1: for an in-play ball and any positive timestep, the speed right after
`Ball.apply_physics` is at most `MAX_BALL_SPEED`; when the speed after gravity
and drag exceeds the maximum, the final velocity is the post-drag velocity
uniformly rescaled by the positive factor `MAX_BALL_SPEED / speed`, which
preserves its direction. -/
theorem applyPhysics_speed_clamp (b : Ball) (dt : ℝ) (hin : b.in_play = true) (hdt : 0 < dt) :
    (b.applyPhysics dt).vel.length ≤ MAX_BALL_SPEED ∧
    (MAX_BALL_SPEED < (b.velAfterDrag dt).length →
      (b.applyPhysics dt).vel
          = (MAX_BALL_SPEED / (b.velAfterDrag dt).length) • b.velAfterDrag dt ∧
      0 < MAX_BALL_SPEED / (b.velAfterDrag dt).length) := by
  have hmax : (0 : ℝ) < MAX_BALL_SPEED := by unfold MAX_BALL_SPEED; norm_num
  have hb : b.in_play = false ↔ False := by simp [hin]
  by_cases hsp : MAX_BALL_SPEED < (b.velAfterDrag dt).length
  · have hpos : 0 < (b.velAfterDrag dt).length := lt_trans hmax hsp
    have hfac : 0 < MAX_BALL_SPEED / (b.velAfterDrag dt).length := div_pos hmax hpos
    have hvel : (b.applyPhysics dt).vel
        = (MAX_BALL_SPEED / (b.velAfterDrag dt).length) • b.velAfterDrag dt := by
      simp only [Ball.applyPhysics, hb, if_false, if_pos hsp]
    refine ⟨?_, fun _ => ⟨hvel, hfac⟩⟩
    rw [hvel, Vec2.length_smul, abs_of_pos hfac,
      div_mul_cancel₀ _ (ne_of_gt hpos)]
  · have hvel : (b.applyPhysics dt).vel = b.velAfterDrag dt := by
      simp only [Ball.applyPhysics, hb, if_false, if_neg hsp]
    exact ⟨by rw [hvel]; exact le_of_not_lt hsp, fun h => absurd h hsp⟩

/-- Witness for C1 at a concrete in-play ball and `dt = 1`. -/
theorem applyPhysics_speed_clamp_witness :
    ((Ball.mk (Vec2.mk 200 300) (Vec2.mk 0 0) BALL_RADIUS true).applyPhysics 1).vel.length
      ≤ MAX_BALL_SPEED :=
  (applyPhysics_speed_clamp (Ball.mk (Vec2.mk 200 300) (Vec2.mk 0 0) BALL_RADIUS true) 1
    rfl (by norm_num)).1

/-- One flipper's state (`Flipper.__init__`, lines 165-180). -/
structure Flipper where
  pivot : Vec2
  length : ℝ
  is_left : Bool
  angle : ℝ
  min_angle : ℝ
  max_angle : ℝ
  key_pressed : Bool
  ang_vel : ℝ

/-- The angle a flipper drives toward (`Flipper.update`, line 189). -/
def Flipper.target (f : Flipper) : ℝ :=
  if f.key_pressed = true then f.max_angle else f.min_angle

/-- `Flipper.update(dt)` (lines 188-196): move the angle toward the target at
`FLIPPER_SPEED`, never overshooting, and record the resulting angular
velocity. -/
def Flipper.update (f : Flipper) (dt : ℝ) : Flipper :=
  let target := f.target
  let newAngle :=
    if f.angle < target then min (f.angle + FLIPPER_SPEED * dt) target
    else if target < f.angle then max (f.angle - FLIPPER_SPEED * dt) target
    else f.angle
  { f with angle := newAngle, ang_vel := (newAngle - f.angle) / max dt 1e-6 }

/-- `Flipper.endpoints` (lines 182-186): pivot and tip of the flipper
segment at the current angle. -/
def Flipper.endpoints (f : Flipper) : Vec2 × Vec2 :=
  let dir_vec := Vec2.mk (Real.cos f.angle) (-(Real.sin f.angle))
  (f.pivot, f.pivot + f.length • dir_vec)

/-- C8: if a flipper's angle lies in `[min_angle, max_angle]` then after
`Flipper.update` with any `dt > 0` it still does, and the angle has moved
toward the current target (max angle when the key intent is set, min angle
otherwise) without overshooting it. -/
theorem flipper_update_bounds (f : Flipper) (dt : ℝ) (hdt : 0 < dt)
    (hlo : f.min_angle ≤ f.angle) (hhi : f.angle ≤ f.max_angle)
    (hmm : f.min_angle ≤ f.max_angle) :
    (f.min_angle ≤ (f.update dt).angle ∧ (f.update dt).angle ≤ f.max_angle) ∧
    (f.angle ≤ f.target → f.angle ≤ (f.update dt).angle ∧ (f.update dt).angle ≤ f.target) ∧
    (f.target ≤ f.angle → f.target ≤ (f.update dt).angle ∧ (f.update dt).angle ≤ f.angle) := by
  have hsp : 0 < FLIPPER_SPEED * dt := by
    have hpi : 0 < FLIPPER_SPEED := by
      unfold FLIPPER_SPEED radians
      positivity
    positivity
  have htlo : f.min_angle ≤ f.target := by
    unfold Flipper.target; split <;> [exact hmm; exact le_refl _]
  have hthi : f.target ≤ f.max_angle := by
    unfold Flipper.target; split <;> [exact le_refl _; exact hmm]
  have hangle : (f.update dt).angle =
      if f.angle < f.target then min (f.angle + FLIPPER_SPEED * dt) f.target
      else if f.target < f.angle then max (f.angle - FLIPPER_SPEED * dt) f.target
      else f.angle := rfl
  rcases lt_trichotomy f.angle f.target with hc | hc | hc
  · rw [hangle, if_pos hc]
    have h1 : f.angle ≤ min (f.angle + FLIPPER_SPEED * dt) f.target :=
      le_min (by linarith) (le_of_lt hc)
    have h2 : min (f.angle + FLIPPER_SPEED * dt) f.target ≤ f.target := min_le_right _ _
    exact ⟨⟨le_trans hlo h1, le_trans h2 hthi⟩,
      fun _ => ⟨h1, h2⟩, fun hle => absurd hc (not_lt.mpr hle)⟩
  · rw [hangle, if_neg (by rw [hc]; exact lt_irrefl _), if_neg (by rw [hc]; exact lt_irrefl _)]
    exact ⟨⟨hlo, hhi⟩, fun _ => ⟨le_refl _, le_of_eq hc⟩, fun _ => ⟨le_of_eq hc.symm, le_refl _⟩⟩
  · rw [hangle, if_neg (not_lt.mpr (le_of_lt hc)), if_pos hc]
    have h1 : f.target ≤ max (f.angle - FLIPPER_SPEED * dt) f.target := le_max_right _ _
    have h2 : max (f.angle - FLIPPER_SPEED * dt) f.target ≤ f.angle :=
      max_le (by linarith) (le_of_lt hc)
    exact ⟨⟨le_trans htlo h1, le_trans h2 hhi⟩,
      fun hle => absurd hc (not_lt.mpr hle), fun _ => ⟨h1, h2⟩⟩

/-- Witness for C8 at a concrete flipper with angle range `[0, 1]` and
`dt = 1`. -/
theorem flipper_update_bounds_witness :
    0 ≤ ((Flipper.mk (Vec2.mk 0 0) 1 true 0 0 1 false 0).update 1).angle ∧
      ((Flipper.mk (Vec2.mk 0 0) 1 true 0 0 1 false 0).update 1).angle ≤ 1 :=
  (flipper_update_bounds (Flipper.mk (Vec2.mk 0 0) 1 true 0 0 1 false 0) 1
    (by norm_num) (by norm_num) (by norm_num) (by norm_num)).1

/-- A wall segment (`Wall` dataclass, lines 100-106); the cosmetic color
field is omitted. -/
structure Wall where
  a : Vec2
  b : Vec2
  score : ℤ := 5
  restitution : ℝ := RESTI_BALL_WALL

/-- A bumper (`Bumper` dataclass, lines 109-114); color omitted. -/
structure Bumper where
  pos : Vec2
  radius : ℝ
  score : ℤ := 100

/-- A rollover sensor (`Rollover` dataclass, lines 121-126). -/
structure Rollover where
  pos : Vec2
  radius : ℝ := 14
  lit : Bool := false
  score : ℤ := 250

/-- `Rollover.check(ball_pos, ball_r)` (lines 133-140): returns whether the
rollover was newly lit, together with its updated state. -/
def Rollover.check (r : Rollover) (ball_pos : Vec2) (ball_r : ℝ) : Bool × Rollover :=
  if r.lit = true then (false, r)
  else if (ball_pos - r.pos).length < r.radius + ball_r * 0.6 then
    (true, { r with lit := true })
  else (false, r)

/-- The game state (`Game.__init__`, lines 254-327); rendering surfaces,
clocks and the cosmetic particle list are omitted. -/
structure Game where
  walls : List Wall
  bumpers : List Bumper
  rollovers : List Rollover
  left_flipper : Flipper
  right_flipper : Flipper
  ball : Ball
  plunger_power : ℝ
  ball_save_timer : ℝ
  ball_save_active : Bool
  score : ℤ
  high_score : ℤ
  balls_left : ℤ
  paused : Bool
  game_over : Bool
  just_lost : Bool
  bonus_mult : ℤ
  bumper_mult : ℤ
  bumper_mult_timer : ℝ
  tilt_meter : ℝ
  tilt_active : Bool
  tilt_timer : ℝ

/-- The freshly spawned ball at the plunger zone (line 301 and line 363). -/
def initialBall : Ball :=
  Ball.mk (Vec2.mk (WIDTH - 140) (HEIGHT - 140)) (Vec2.mk 0 0) BALL_RADIUS false

/-- The table's wall list (lines 265-276): field borders, inlanes and the
two extra-bouncy slingshots. -/
def tableWalls : List Wall :=
  let margin : ℝ := 80
  let bottom_y : ℝ := HEIGHT - 80
  [ { a := Vec2.mk margin 140, b := Vec2.mk margin bottom_y },
    { a := Vec2.mk margin 140, b := Vec2.mk (WIDTH - margin - 100) 140 },
    { a := Vec2.mk (WIDTH - margin - 100) 140,
      b := Vec2.mk (WIDTH - margin - 100) (bottom_y - 180) },
    { a := Vec2.mk margin bottom_y, b := Vec2.mk (WIDTH / 2 - 80) (HEIGHT - 20) },
    { a := Vec2.mk (WIDTH - margin - 100) (bottom_y - 180),
      b := Vec2.mk (WIDTH - margin - 60) (bottom_y - 60) },
    { a := Vec2.mk (WIDTH - margin - 60) (bottom_y - 60),
      b := Vec2.mk (WIDTH / 2 + 80) (HEIGHT - 20) },
    { a := Vec2.mk (WIDTH * 0.28) (bottom_y - 40), b := Vec2.mk (WIDTH * 0.42) (bottom_y - 110),
      score := 25, restitution := 1.2 },
    { a := Vec2.mk (WIDTH * 0.72) (bottom_y - 40), b := Vec2.mk (WIDTH * 0.58) (bottom_y - 110),
      score := 25, restitution := 1.2 } ]

/-- The table's bumpers (lines 279-286). -/
def tableBumpers : List Bumper :=
  [ Bumper.mk (Vec2.mk (WIDTH * 0.35) 300) 38 150,
    Bumper.mk (Vec2.mk (WIDTH * 0.55) 300) 38 150,
    Bumper.mk (Vec2.mk (WIDTH * 0.45) 220) 38 200,
    Bumper.mk (Vec2.mk (WIDTH * 0.32) 480) 28 100,
    Bumper.mk (Vec2.mk (WIDTH * 0.58) 520) 28 100,
    Bumper.mk (Vec2.mk (WIDTH * 0.46) 620) 24 75 ]

/-- The table's rollovers (lines 289-293), built with the dataclass
defaults. -/
def tableRollovers : List Rollover :=
  [ { pos := Vec2.mk (WIDTH * 0.35) 160 },
    { pos := Vec2.mk (WIDTH * 0.45) 160 },
    { pos := Vec2.mk (WIDTH * 0.55) 160 } ]

/-- `Game.reset_ball` (lines 361-367): respawn the ball idle at the plunger
zone and clear the plunger charge and ball-save window. -/
def Game.resetBall (g : Game) : Game :=
  { g with
    ball := initialBall, plunger_power := 0.0, just_lost := false,
    ball_save_active := false, ball_save_timer := 0.0 }

/-- `Game.launch_ball` (lines 369-382): a no-op while the ball is in play,
otherwise give the ball its launch velocity from the plunger charge and open
the ball-save window.  The randomized launch angle is a parameter. -/
def Game.launchBall (g : Game) (angle : ℝ) : Game :=
  if g.ball.in_play = true then g
  else
    let speed := g.plunger_power + 400.0
    { g with
      ball := { g.ball with
        vel := Vec2.mk (Real.cos angle * speed) (-(Real.sin angle * speed)),
        in_play := true },
      plunger_power := 0.0,
      ball_save_active := true,
      ball_save_timer := BALL_SAVE_TIME }

/-- One wall's pass of `Game.handle_wall_collisions` (lines 485-498):
push-out, tangential friction, reflection with the wall's restitution, and
score only while in play. -/
def Game.wallStep (g : Game) (w : Wall) : Game :=
  let res := circle_line_collision g.ball.pos g.ball.radius w.a w.b
  if res.hit = true then
    let pos1 := g.ball.pos + res.push
    let t := Vec2.mk (-res.n.y) res.n.x
    let vt := Vec2.dot g.ball.vel t * (1.0 - TANGENTIAL_FRICTION)
    let vn := Vec2.dot g.ball.vel res.n
    let vel1 := reflect (vt • t + vn • res.n) res.n w.restitution
    let g1 := { g with ball := { g.ball with pos := pos1, vel := vel1 } }
    if g1.ball.in_play = true then { g1 with score := g1.score + w.score } else g1
  else g

/-- The soft boundary clamps of `Game.handle_wall_collisions` (lines
500-510), applied in source order. -/
def Game.boundaryClamp (g : Game) : Game :=
  let margin : ℝ := 74
  let g1 :=
    if g.ball.pos.x - g.ball.radius < margin then
      { g with ball := { g.ball with
          pos := Vec2.mk (margin + g.ball.radius) g.ball.pos.y,
          vel := Vec2.mk (|g.ball.vel.x| * RESTI_BALL_WALL) g.ball.vel.y } }
    else g
  let g2 :=
    if WIDTH - 160 < g1.ball.pos.x + g1.ball.radius then
      { g1 with ball := { g1.ball with
          pos := Vec2.mk (WIDTH - 160 - g1.ball.radius) g1.ball.pos.y,
          vel := Vec2.mk (-(|g1.ball.vel.x| * RESTI_BALL_WALL)) g1.ball.vel.y } }
    else g1
  if g2.ball.pos.y - g2.ball.radius < 120 + 16 then
    { g2 with ball := { g2.ball with
        pos := Vec2.mk g2.ball.pos.x (120 + 16 + g2.ball.radius),
        vel := Vec2.mk g2.ball.vel.x (|g2.ball.vel.y| * RESTI_BALL_WALL) } }
  else g2

/-- `Game.handle_wall_collisions` (lines 484-510). -/
def Game.handleWallCollisions (g : Game) : Game :=
  (g.walls.foldl Game.wallStep g).boundaryClamp

/-- One bumper's pass of `Game.handle_bumper_collisions` (lines 513-522):
push-out, reflection with the bumper restitution, a fixed outward impulse,
and a multiplied score only while in play. -/
def Game.bumperStep (g : Game) (b : Bumper) : Game :=
  let res := circle_circle_collision g.ball.pos g.ball.radius b.pos b.radius
  if res.hit = true then
    let pos1 := g.ball.pos + res.push
    let vel1 := reflect g.ball.vel res.n RESTI_BALL_BUMPER + (200.0 : ℝ) • res.n
    let g1 := { g with ball := { g.ball with pos := pos1, vel := vel1 } }
    if g1.ball.in_play = true then
      { g1 with score := g1.score + b.score * g1.bumper_mult }
    else g1
  else g

/-- `Game.handle_bumper_collisions` (lines 512-522). -/
def Game.handleBumperCollisions (g : Game) : Game :=
  g.bumpers.foldl Game.bumperStep g

/-- The per-rollover loop of `Game.handle_rollovers` (lines 525-531): check
every rollover against the ball, collecting the updated sensors and the
score of the newly lit ones (awarded only while in play). -/
def Game.rolloverScan (g : Game) : Game :=
  let p := g.rollovers.foldl
    (fun (acc : ℤ × List Rollover) r =>
      let res := Rollover.check r g.ball.pos g.ball.radius
      (acc.1 + (if res.1 = true ∧ g.ball.in_play = true then r.score else 0),
        acc.2 ++ [res.2]))
    (0, [])
  { g with score := g.score + p.1, rollovers := p.2 }

/-- The completion branch of `Game.handle_rollovers` (lines 532-539): while
in play with every rollover lit, award the 1000-point bonus, start the
bumper multiplier window and reset all the lights. -/
def Game.rolloverBonus (g : Game) : Game :=
  if g.ball.in_play = true ∧ ∀ r ∈ g.rollovers, r.lit = true then
    { g with
      score := g.score + 1000, bumper_mult := 2, bumper_mult_timer := 15.0,
      rollovers := g.rollovers.map fun r => { r with lit := false } }
  else g

/-- `Game.handle_rollovers` (lines 524-539). -/
def Game.handleRollovers (g : Game) : Game :=
  g.rolloverScan.rolloverBonus

/-- `Game.handle_flipper_collision(flipper)` (lines 541-565): push-out,
reflection, an extra boost along the normal when the flipper swings into the
ball, and a small score only while in play. -/
def Game.handleFlipperCollision (g : Game) (flipper : Flipper) : Game :=
  let ep := flipper.endpoints
  let res := circle_line_collision g.ball.pos g.ball.radius ep.1 ep.2
  if res.hit = true then
    let pos1 := g.ball.pos + res.push
    let vel1 := reflect g.ball.vel res.n RESTI_BALL_FLIPPER
    let r := res.closest - flipper.pivot
    let v_point := flipper.ang_vel • Vec2.mk (-r.y) r.x
    let boost := Vec2.dot v_point res.n
    let vel2 := if 0 < boost then vel1 + (boost * 0.9) • res.n else vel1
    let g1 := { g with ball := { g.ball with pos := pos1, vel := vel2 } }
    if g1.ball.in_play = true then { g1 with score := g1.score + 1 } else g1
  else g

/-- The two flipper-collision calls of `Game.update` (lines 439-440). -/
def Game.flipperCollisions (g : Game) : Game :=
  let g1 := g.handleFlipperCollision g.left_flipper
  g1.handleFlipperCollision g1.right_flipper

/-- The flipper updates of `Game.update` (lines 423-424). -/
def Game.flipperUpdates (g : Game) (dt : ℝ) : Game :=
  { g with
    left_flipper := g.left_flipper.update dt,
    right_flipper := g.right_flipper.update dt }

/-- The ball-physics call of `Game.update` (line 427). -/
def Game.physicsStep (g : Game) (dt : ℝ) : Game :=
  { g with ball := g.ball.applyPhysics dt }

/-- The bumper-multiplier countdown of `Game.update` (lines 446-449). -/
def Game.bumperTimerStep (g : Game) (dt : ℝ) : Game :=
  if 0 < g.bumper_mult_timer then
    let t := g.bumper_mult_timer - dt
    if t ≤ 0 then { g with bumper_mult_timer := t, bumper_mult := 1 }
    else { g with bumper_mult_timer := t }
  else g

/-- The tilt countdown and meter decay of `Game.update` (lines 452-458). -/
def Game.tiltStep (g : Game) (dt : ℝ) : Game :=
  if g.tilt_active = true then
    let t := g.tilt_timer - dt
    if t ≤ 0 then { g with tilt_timer := t, tilt_active := false }
    else { g with tilt_timer := t }
  else { g with tilt_meter := max 0.0 (g.tilt_meter - TILT_DECAY * dt) }

/-- The ball-save countdown of `Game.update` (lines 461-464). -/
def Game.ballSaveStep (g : Game) (dt : ℝ) : Game :=
  if g.ball_save_active = true then
    let t := g.ball_save_timer - dt
    if t ≤ 0 then { g with ball_save_timer := t, ball_save_active := false }
    else { g with ball_save_timer := t }
  else g

/-- The drain check of `Game.update` (lines 467-482): past the bottom
threshold, either consume the ball save, or lose a ball and possibly end the
game with the high score updated (`save_high_score` persists exactly the
`high_score` field written here). -/
def Game.drainCheck (g : Game) : Game :=
  if g.ball.in_play = true ∧ HEIGHT + 40 < g.ball.pos.y - g.ball.radius then
    if g.ball_save_active = true then
      Game.resetBall { g with ball := { g.ball with in_play := false } }
    else
      let g1 := { g with
        balls_left := g.balls_left - 1,
        ball := { g.ball with in_play := false }, just_lost := true }
      if g1.balls_left ≤ 0 then
        { g1 with game_over := true, high_score := max g1.high_score g1.score }
      else g1.resetBall
  else g

/-- Everything `Game.update` (lines 418-482) does before the drain check,
in source order: flippers, ball physics, wall/bumper/rollover/flipper
collisions, and the three timer updates.  The cosmetic particle update (line
443) is omitted. -/
def Game.preDrain (g : Game) (dt : ℝ) : Game :=
  (((((((g.flipperUpdates dt).physicsStep dt).handleWallCollisions
    ).handleBumperCollisions.handleRollovers.flipperCollisions
    ).bumperTimerStep dt).tiltStep dt).ballSaveStep dt)

/-- `Game.update(dt)` (lines 418-482): a no-op while paused or game over,
otherwise the full frame pipeline followed by the drain check. -/
def Game.update (g : Game) (dt : ℝ) : Game :=
  if g.paused = true ∨ g.game_over = true then g
  else (g.preDrain dt).drainCheck

/-- `Game.do_nudge` (lines 584-594): lateral impulse, tilt meter increment,
and tilt activation at the threshold.  The random direction sign is a
parameter. -/
def Game.doNudge (g : Game) (dir_sign : ℝ) : Game :=
  let g1 := { g with
    ball := { g.ball with
      vel := Vec2.mk (g.ball.vel.x + dir_sign * NUDGE_IMPULSE) g.ball.vel.y },
    tilt_meter := g.tilt_meter + 1.0 }
  if TILT_MAX ≤ g1.tilt_meter ∧ g1.tilt_active = false then
    { g1 with
      tilt_active := true, tilt_timer := TILT_LOCKOUT,
      left_flipper := { g1.left_flipper with key_pressed := false },
      right_flipper := { g1.right_flipper with key_pressed := false } }
  else g1

/-- The nudge-key branch of `Game.handle_events` (lines 401-402): the nudge
is performed only while the ball is in play, the game is not paused and not
over. -/
def Game.nudgeKey (g : Game) (dir_sign : ℝ) : Game :=
  if g.ball.in_play = true ∧ g.paused = false ∧ g.game_over = false then
    g.doNudge dir_sign
  else g

/-- `Game.restart` (lines 639-652); the particle clearing (line 652) is
omitted with the particle list. -/
def Game.restart (g : Game) : Game :=
  let g1 := { g with
    score := 0, balls_left := START_BALLS,
    game_over := false, paused := false }
  let g2 := g1.resetBall
  { g2 with
    bonus_mult := 1, bumper_mult := 1, bumper_mult_timer := 0.0,
    rollovers := g2.rollovers.map fun r => { r with lit := false },
    tilt_meter := 0.0, tilt_active := false }

/-- The restart-key branch of `Game.handle_events` (lines 398-400): restart
fires only from the game-over state. -/
def Game.restartKey (g : Game) : Game :=
  if g.game_over = true then g.restart else g

/-! Infrastructure: fold invariants, frame lemmas and miss conditions. -/

theorem foldl_inv {α β : Type _} (f : β → α → β) (P : β → Prop)
    (hf : ∀ b a, P b → P (f b a)) :
    ∀ (l : List α) (b : β), P b → P (l.foldl f b) := by
  intro l
  induction l with
  | nil => intro b hb; exact hb
  | cons a l ih => intro b hb; exact ih _ (hf b a hb)

/-- The fields of the game state no collision handler or in-frame timer
touches: they are only written by the drain check, launch and restart. -/
def StepCore (g g' : Game) : Prop :=
  g'.ball.in_play = g.ball.in_play ∧ g'.balls_left = g.balls_left ∧
  g'.high_score = g.high_score ∧ g'.game_over = g.game_over ∧
  g'.ball_save_active = g.ball_save_active ∧ g'.ball_save_timer = g.ball_save_timer ∧
  g'.ball.radius = g.ball.radius

theorem stepCore_refl (g : Game) : StepCore g g :=
  ⟨rfl, rfl, rfl, rfl, rfl, rfl, rfl⟩

theorem stepCore_trans {g1 g2 g3 : Game} (h1 : StepCore g1 g2) (h2 : StepCore g2 g3) :
    StepCore g1 g3 := by
  obtain ⟨a1, b1, c1, d1, e1, f1, r1⟩ := h1
  obtain ⟨a2, b2, c2, d2, e2, f2, r2⟩ := h2
  exact ⟨a2.trans a1, b2.trans b1, c2.trans c1, d2.trans d1, e2.trans e1,
    f2.trans f1, r2.trans r1⟩

theorem stepCore_flipperUpdates (g : Game) (dt : ℝ) : StepCore g (g.flipperUpdates dt) :=
  stepCore_refl g

theorem applyPhysics_in_play (b : Ball) (dt : ℝ) : (b.applyPhysics dt).in_play = b.in_play := by
  unfold Ball.applyPhysics; dsimp only; split <;> rfl

theorem applyPhysics_radius (b : Ball) (dt : ℝ) : (b.applyPhysics dt).radius = b.radius := by
  unfold Ball.applyPhysics; dsimp only; split <;> rfl

theorem stepCore_physicsStep (g : Game) (dt : ℝ) : StepCore g (g.physicsStep dt) :=
  ⟨applyPhysics_in_play _ _, rfl, rfl, rfl, rfl, rfl, applyPhysics_radius _ _⟩

theorem stepCore_wallStep (g : Game) (w : Wall) : StepCore g (g.wallStep w) := by
  unfold Game.wallStep
  dsimp only
  split
  · split
    · exact ⟨rfl, rfl, rfl, rfl, rfl, rfl, rfl⟩
    · exact ⟨rfl, rfl, rfl, rfl, rfl, rfl, rfl⟩
  · exact stepCore_refl g

theorem stepCore_boundaryClamp (g : Game) : StepCore g g.boundaryClamp := by
  unfold Game.boundaryClamp
  dsimp only
  split <;> split <;> split <;> exact ⟨rfl, rfl, rfl, rfl, rfl, rfl, rfl⟩

theorem stepCore_handleWallCollisions (g : Game) : StepCore g g.handleWallCollisions := by
  unfold Game.handleWallCollisions
  exact stepCore_trans
    (foldl_inv Game.wallStep (StepCore g)
      (fun b a hb => stepCore_trans hb (stepCore_wallStep b a)) g.walls g (stepCore_refl g))
    (stepCore_boundaryClamp _)

theorem stepCore_bumperStep (g : Game) (b : Bumper) : StepCore g (g.bumperStep b) := by
  unfold Game.bumperStep
  dsimp only
  split
  · split
    · exact ⟨rfl, rfl, rfl, rfl, rfl, rfl, rfl⟩
    · exact ⟨rfl, rfl, rfl, rfl, rfl, rfl, rfl⟩
  · exact stepCore_refl g

theorem stepCore_handleBumperCollisions (g : Game) : StepCore g g.handleBumperCollisions :=
  foldl_inv Game.bumperStep (StepCore g)
    (fun b a hb => stepCore_trans hb (stepCore_bumperStep b a)) g.bumpers g (stepCore_refl g)

theorem stepCore_rolloverScan (g : Game) : StepCore g g.rolloverScan :=
  ⟨rfl, rfl, rfl, rfl, rfl, rfl, rfl⟩

theorem stepCore_rolloverBonus (g : Game) : StepCore g g.rolloverBonus := by
  unfold Game.rolloverBonus
  split <;> exact ⟨rfl, rfl, rfl, rfl, rfl, rfl, rfl⟩

theorem stepCore_handleRollovers (g : Game) : StepCore g g.handleRollovers :=
  stepCore_trans (stepCore_rolloverScan g) (stepCore_rolloverBonus _)

theorem stepCore_handleFlipperCollision (g : Game) (f : Flipper) :
    StepCore g (g.handleFlipperCollision f) := by
  unfold Game.handleFlipperCollision
  dsimp only
  split
  · split
    · exact ⟨rfl, rfl, rfl, rfl, rfl, rfl, rfl⟩
    · exact ⟨rfl, rfl, rfl, rfl, rfl, rfl, rfl⟩
  · exact stepCore_refl g

theorem stepCore_flipperCollisions (g : Game) : StepCore g g.flipperCollisions :=
  stepCore_trans (stepCore_handleFlipperCollision g _) (stepCore_handleFlipperCollision _ _)

theorem stepCore_bumperTimerStep (g : Game) (dt : ℝ) : StepCore g (g.bumperTimerStep dt) := by
  unfold Game.bumperTimerStep
  dsimp only
  split
  · split <;> exact ⟨rfl, rfl, rfl, rfl, rfl, rfl, rfl⟩
  · exact stepCore_refl g

theorem stepCore_tiltStep (g : Game) (dt : ℝ) : StepCore g (g.tiltStep dt) := by
  unfold Game.tiltStep
  dsimp only
  split
  · split <;> exact ⟨rfl, rfl, rfl, rfl, rfl, rfl, rfl⟩
  · exact ⟨rfl, rfl, rfl, rfl, rfl, rfl, rfl⟩

/-- The whole pre-drain pipeline leaves the frame of fields owned by the
drain/launch/restart logic untouched, the ball-save flags only through the
final countdown. -/
theorem preDrain_stepCore (g : Game) (dt : ℝ) :
    StepCore g ((((((g.flipperUpdates dt).physicsStep dt).handleWallCollisions
      ).handleBumperCollisions.handleRollovers.flipperCollisions
      ).bumperTimerStep dt).tiltStep dt) :=
  stepCore_trans (stepCore_flipperUpdates g dt) <| stepCore_trans (stepCore_physicsStep _ dt) <|
    stepCore_trans (stepCore_handleWallCollisions _) <|
    stepCore_trans (stepCore_handleBumperCollisions _) <|
    stepCore_trans (stepCore_handleRollovers _) <|
    stepCore_trans (stepCore_flipperCollisions _) <|
    stepCore_trans (stepCore_bumperTimerStep _ dt) (stepCore_tiltStep _ dt)

theorem ballSaveStep_core (g : Game) (dt : ℝ) :
    (g.ballSaveStep dt).ball.in_play = g.ball.in_play ∧
    (g.ballSaveStep dt).balls_left = g.balls_left ∧
    (g.ballSaveStep dt).high_score = g.high_score ∧
    (g.ballSaveStep dt).game_over = g.game_over ∧
    (g.ballSaveStep dt).ball.radius = g.ball.radius := by
  unfold Game.ballSaveStep
  dsimp only
  split
  · split <;> exact ⟨rfl, rfl, rfl, rfl, rfl⟩
  · exact ⟨rfl, rfl, rfl, rfl, rfl⟩

/-- `Game.preDrain` preserves the drain-owned fields. -/
theorem preDrain_core (g : Game) (dt : ℝ) :
    (g.preDrain dt).ball.in_play = g.ball.in_play ∧
    (g.preDrain dt).balls_left = g.balls_left ∧
    (g.preDrain dt).high_score = g.high_score ∧
    (g.preDrain dt).game_over = g.game_over := by
  have h1 := preDrain_stepCore g dt
  have h2 := ballSaveStep_core ((((((g.flipperUpdates dt).physicsStep dt).handleWallCollisions
      ).handleBumperCollisions.handleRollovers.flipperCollisions
      ).bumperTimerStep dt).tiltStep dt) dt
  exact ⟨h2.1.trans h1.1, h2.2.1.trans h1.2.1, h2.2.2.1.trans h1.2.2.1,
    h2.2.2.2.1.trans h1.2.2.2.1⟩

/-- A circle strictly below a segment (centre at least `r` below both
endpoints) misses it; this covers the degenerate point-segment branch too. -/
theorem circle_line_no_hit (c : Vec2) (r : ℝ) (a b : Vec2)
    (h1 : a.y + r ≤ c.y) (h2 : b.y + r ≤ c.y) :
    (circle_line_collision c r a b).hit = false := by
  have key : ∀ v : Vec2, r ≤ v.y → ¬(v.length + 1e-9 < r) := by
    intro v hv
    have h3 : v.y ≤ |v.y| := le_abs_self _
    have h4 := Vec2.abs_y_le_length v
    have h5 : (0 : ℝ) ≤ 1e-9 := by norm_num
    push_neg
    linarith
  unfold circle_line_collision
  dsimp only
  split
  · rw [if_neg (key (c - a) (by simp; linarith))]
  · rw [if_neg]
    apply key
    have ht0 : (0 : ℝ) ≤ clamp (Vec2.dot (c - a) (b - a) / (b - a).lengthSq) 0.0 1.0 := by
      unfold clamp
      exact le_max_of_le_left (by norm_num)
    have ht1 : clamp (Vec2.dot (c - a) (b - a) / (b - a).lengthSq) 0.0 1.0 ≤ 1 := by
      unfold clamp
      exact max_le (by norm_num) ((min_le_left _ _).trans (by norm_num))
    set t := clamp (Vec2.dot (c - a) (b - a) / (b - a).lengthSq) 0.0 1.0 with hts
    simp only [Vec2.sub_y, Vec2.add_y, Vec2.smul_y]
    nlinarith

/-- A circle strictly below another circle's centre by at least the sum of
the radii misses it. -/
theorem circle_circle_no_hit (c1 : Vec2) (r1 : ℝ) (c2 : Vec2) (r2 : ℝ)
    (h : c2.y + (r1 + r2) ≤ c1.y) :
    (circle_circle_collision c1 r1 c2 r2).hit = false := by
  unfold circle_circle_collision
  rw [if_neg]
  have h3 : (c1 - c2).y ≤ |(c1 - c2).y| := le_abs_self _
  have h4 := Vec2.abs_y_le_length (c1 - c2)
  have h5 : (0 : ℝ) ≤ 1e-9 := by norm_num
  simp only [Vec2.sub_y] at h3 h4 ⊢
  push_neg
  linarith

/-- A flipper-collision call whose segment test misses is the identity. -/
theorem handleFlipperCollision_no_hit (g : Game) (f : Flipper)
    (h : (circle_line_collision g.ball.pos g.ball.radius f.endpoints.1 f.endpoints.2).hit
      = false) :
    g.handleFlipperCollision f = g := by
  unfold Game.handleFlipperCollision
  simp only [h]
  rfl

/-- A wall pass whose segment test misses is the identity. -/
theorem wallStep_no_hit (g : Game) (w : Wall)
    (h : (circle_line_collision g.ball.pos g.ball.radius w.a w.b).hit = false) :
    g.wallStep w = g := by
  unfold Game.wallStep
  simp only [h]
  rfl

/-- A bumper pass whose circle test misses is the identity. -/
theorem bumperStep_no_hit (g : Game) (b : Bumper)
    (h : (circle_circle_collision g.ball.pos g.ball.radius b.pos b.radius).hit = false) :
    g.bumperStep b = g := by
  unfold Game.bumperStep
  simp only [h]
  rfl

/-- The boundary clamps do nothing to a ball inside all three margins. -/
theorem boundaryClamp_id (g : Game)
    (h1 : ¬(g.ball.pos.x - g.ball.radius < 74))
    (h2 : ¬(WIDTH - 160 < g.ball.pos.x + g.ball.radius))
    (h3 : ¬(g.ball.pos.y - g.ball.radius < 120 + 16)) :
    g.boundaryClamp = g := by
  unfold Game.boundaryClamp
  dsimp only
  rw [if_neg h1]
  rw [if_neg h2]
  rw [if_neg h3]

/-! Concrete states used to instantiate the theorems. -/

/-- A zero-size resting flipper, convenient for states whose flippers are
irrelevant. -/
def trivialFlipper : Flipper :=
  Flipper.mk (Vec2.mk 0 0) 0 true 0 0 0 false 0

/-- A minimal game state: empty table, idle ball, fresh session counters. -/
def voidGame : Game where
  walls := []
  bumpers := []
  rollovers := []
  left_flipper := trivialFlipper
  right_flipper := trivialFlipper
  ball := initialBall
  plunger_power := 0
  ball_save_timer := 0
  ball_save_active := false
  score := 0
  high_score := 0
  balls_left := START_BALLS
  paused := false
  game_over := false
  just_lost := false
  bonus_mult := 1
  bumper_mult := 1
  bumper_mult_timer := 0
  tilt_meter := 0
  tilt_active := false
  tilt_timer := 0

/-- A game whose ball is in play. -/
def gInPlay : Game :=
  { voidGame with ball := { initialBall with in_play := true } }

/-- C10: calling `launch_ball` while the ball is already in play leaves the
entire game state unchanged (position, velocity, `in_play`, plunger charge
and the ball-save window included). -/
theorem launchBall_in_play_noop (g : Game) (angle : ℝ) (h : g.ball.in_play = true) :
    g.launchBall angle = g := by
  unfold Game.launchBall
  rw [if_pos h]

/-- Witness for C10 at a concrete in-play state. -/
theorem launchBall_in_play_noop_witness : gInPlay.launchBall 2 = gInPlay :=
  launchBall_in_play_noop gInPlay 2 rfl

/-- C7: the restart key is accepted only in the game-over state, and a
restart zeroes the score, restores the starting ball count, unlights every
rollover, resets the multiplier, its timer and the tilt state, respawns the
ball idle at the launch lane, and leaves the high score unchanged. -/
theorem restart_spec (g : Game) :
    (g.game_over = false → g.restartKey = g) ∧
    (g.game_over = true →
      g.restartKey = g.restart ∧
      g.restart.score = 0 ∧
      g.restart.balls_left = START_BALLS ∧
      (∀ r ∈ g.restart.rollovers, r.lit = false) ∧
      g.restart.bonus_mult = 1 ∧
      g.restart.bumper_mult = 1 ∧
      g.restart.bumper_mult_timer = 0 ∧
      g.restart.tilt_meter = 0 ∧
      g.restart.tilt_active = false ∧
      g.restart.ball = initialBall ∧
      g.restart.plunger_power = 0 ∧
      g.restart.high_score = g.high_score ∧
      g.restart.game_over = false ∧
      g.restart.paused = false) := by
  constructor
  · intro h
    unfold Game.restartKey
    rw [h]
    rfl
  · intro h
    have hroll : ∀ r ∈ g.restart.rollovers, r.lit = false := by
      intro r hr
      have : g.restart.rollovers = g.rollovers.map (fun r => { r with lit := false }) := rfl
      rw [this] at hr
      rcases List.mem_map.mp hr with ⟨a, _, rfl⟩
      rfl
    refine ⟨?_, rfl, rfl, hroll, rfl, rfl, by norm_num [Game.restart], by norm_num [Game.restart],
      rfl, rfl, by norm_num [Game.restart, Game.resetBall], rfl, rfl, rfl⟩
    unfold Game.restartKey
    rw [h]
    rfl

/-- A just-finished session: game over with a nonzero score on the board. -/
def gOver : Game :=
  { voidGame with game_over := true, score := 123, high_score := 77 }

/-- Witness for C7 at a concrete game-over state. -/
theorem restart_spec_witness :
    gOver.restartKey = gOver.restart ∧ gOver.restart.score = 0 ∧
      gOver.restart.high_score = gOver.high_score :=
  ⟨((restart_spec gOver).2 rfl).1, ((restart_spec gOver).2 rfl).2.1,
    ((restart_spec gOver).2 rfl).2.2.2.2.2.2.2.2.2.2.2.1⟩

/-- A tilted game whose ball is nevertheless in play. -/
def gTilted : Game :=
  { voidGame with ball := { initialBall with in_play := true }, tilt_active := true }

/-- Counterexample to C4 as stated: the nudge key is gated on in-play, not
paused and not game over, but NOT on tilt — in a tilted state the nudge is
still performed and changes the ball's velocity. -/
theorem nudge_while_tilted_counterexample :
    gTilted.tilt_active = true ∧ gTilted.ball.in_play = true ∧ gTilted.paused = false ∧
      gTilted.game_over = false ∧
      (gTilted.nudgeKey 1).ball.vel.x ≠ gTilted.ball.vel.x := by
  refine ⟨rfl, rfl, rfl, rfl, ?_⟩
  have h1 : gTilted.nudgeKey 1 = gTilted.doNudge 1 := by
    unfold Game.nudgeKey
    rw [if_pos ⟨rfl, rfl, rfl⟩]
  have h2 : (gTilted.doNudge 1).ball.vel.x = gTilted.ball.vel.x + 1 * NUDGE_IMPULSE := by
    unfold Game.doNudge
    dsimp only
    split <;> rfl
  rw [h1, h2]
  show gTilted.ball.vel.x + 1 * NUDGE_IMPULSE ≠ gTilted.ball.vel.x
  have : gTilted.ball.vel.x = 0 := rfl
  rw [this]
  unfold NUDGE_IMPULSE
  norm_num

/-- C4 (amended): a nudge is performed exactly when the ball is in play, the
game is not paused and not over (tilt does not block it); it adds the fixed
lateral impulse to the ball's x-velocity and raises the tilt meter by one,
and when the meter reaches the threshold while tilt is not yet active, tilt
activates with the lockout timer and both flipper intents are cleared,
otherwise the tilt state and flippers stay as they were. -/
theorem nudge_spec (g : Game) (dir : ℝ) (hdir : dir = 1 ∨ dir = -1) :
    (¬(g.ball.in_play = true ∧ g.paused = false ∧ g.game_over = false) →
      g.nudgeKey dir = g) ∧
    ((g.ball.in_play = true ∧ g.paused = false ∧ g.game_over = false) →
      g.nudgeKey dir = g.doNudge dir) ∧
    (g.doNudge dir).ball.vel.x = g.ball.vel.x + dir * NUDGE_IMPULSE ∧
    (g.doNudge dir).ball.vel.y = g.ball.vel.y ∧
    (g.doNudge dir).tilt_meter = g.tilt_meter + 1 ∧
    (TILT_MAX ≤ g.tilt_meter + 1.0 ∧ g.tilt_active = false →
      (g.doNudge dir).tilt_active = true ∧
      (g.doNudge dir).tilt_timer = TILT_LOCKOUT ∧
      (g.doNudge dir).left_flipper.key_pressed = false ∧
      (g.doNudge dir).right_flipper.key_pressed = false) ∧
    (¬(TILT_MAX ≤ g.tilt_meter + 1.0 ∧ g.tilt_active = false) →
      (g.doNudge dir).tilt_active = g.tilt_active ∧
      (g.doNudge dir).tilt_timer = g.tilt_timer ∧
      (g.doNudge dir).left_flipper = g.left_flipper ∧
      (g.doNudge dir).right_flipper = g.right_flipper) := by
  refine ⟨?_, ?_, ?_, ?_, ?_, ?_, ?_⟩
  · intro h
    unfold Game.nudgeKey
    rw [if_neg h]
  · intro h
    unfold Game.nudgeKey
    rw [if_pos h]
  · unfold Game.doNudge
    dsimp only
    split <;> rfl
  · unfold Game.doNudge
    dsimp only
    split <;> rfl
  · unfold Game.doNudge
    dsimp only
    split <;> norm_num
  · intro h
    unfold Game.doNudge
    dsimp only
    rw [if_pos h]
    exact ⟨rfl, rfl, rfl, rfl⟩
  · intro h
    unfold Game.doNudge
    dsimp only
    rw [if_neg h]
    exact ⟨rfl, rfl, rfl, rfl⟩

/-- An in-play game two nudges away from tilting. -/
def gNudge : Game :=
  { voidGame with ball := { initialBall with in_play := true }, tilt_meter := 2.5 }

/-- Witness for the amended C4: a nudge at tilt meter 2.5 performs the
impulse and activates tilt. -/
theorem nudge_spec_witness :
    (gNudge.doNudge 1).tilt_active = true ∧
      (gNudge.doNudge 1).ball.vel.x = gNudge.ball.vel.x + 1 * NUDGE_IMPULSE := by
  have hcond : TILT_MAX ≤ gNudge.tilt_meter + 1.0 ∧ gNudge.tilt_active = false := by
    constructor
    · show TILT_MAX ≤ (2.5 : ℝ) + 1.0
      unfold TILT_MAX
      norm_num
    · rfl
  exact ⟨((nudge_spec gNudge 1 (Or.inl rfl)).2.2.2.2.2.1 hcond).1,
    (nudge_spec gNudge 1 (Or.inl rfl)).2.2.1⟩

/-- C6: lighting a rollover is idempotent — a lit rollover's check reports
nothing new and changes nothing — and in any in-play frame after whose
per-rollover checks every rollover is lit, the handler awards the 1000-point
bonus exactly once, activates the bumper multiplier with its 15-second
window, and resets every rollover to unlit. -/
theorem rollover_spec :
    (∀ (r : Rollover) (p : Vec2) (br : ℝ), r.lit = true → r.check p br = (false, r)) ∧
    (∀ g : Game, g.ball.in_play = true →
      (∀ r ∈ g.rolloverScan.rollovers, r.lit = true) →
      g.handleRollovers.score = g.rolloverScan.score + 1000 ∧
      g.handleRollovers.bumper_mult = 2 ∧
      g.handleRollovers.bumper_mult_timer = 15.0 ∧
      (∀ r ∈ g.handleRollovers.rollovers, r.lit = false)) := by
  constructor
  · intro r p br h
    unfold Rollover.check
    rw [if_pos h]
  · intro g hin hall
    have hin2 : g.rolloverScan.ball.in_play = true := hin
    have hpos : g.handleRollovers =
        { g.rolloverScan with
          score := g.rolloverScan.score + 1000, bumper_mult := 2, bumper_mult_timer := 15.0,
          rollovers := g.rolloverScan.rollovers.map fun r => { r with lit := false } } := by
      unfold Game.handleRollovers Game.rolloverBonus
      rw [if_pos ⟨hin2, hall⟩]
    refine ⟨by rw [hpos], by rw [hpos], by rw [hpos], ?_⟩
    intro r hr
    rw [hpos] at hr
    dsimp only at hr
    rcases List.mem_map.mp hr with ⟨a, _, rfl⟩
    rfl

/-- Three already-lit rollovers at the top lanes. -/
def litRollovers : List Rollover :=
  [ { pos := Vec2.mk (WIDTH * 0.35) 160, lit := true },
    { pos := Vec2.mk (WIDTH * 0.45) 160, lit := true },
    { pos := Vec2.mk (WIDTH * 0.55) 160, lit := true } ]

/-- An in-play game whose rollover set is fully lit. -/
def gAllLit : Game :=
  { voidGame with ball := { initialBall with in_play := true }, rollovers := litRollovers }

/-- Witness for C6: a lit rollover's check is inert, and the fully lit frame
fires the bonus and multiplier. -/
theorem rollover_spec_witness :
    Rollover.check { pos := Vec2.mk 0 0, lit := true } (Vec2.mk 5 5) 12
        = (false, { pos := Vec2.mk 0 0, lit := true }) ∧
      gAllLit.handleRollovers.bumper_mult = 2 ∧
      gAllLit.handleRollovers.score = gAllLit.rolloverScan.score + 1000 := by
  have hall : ∀ r ∈ gAllLit.rolloverScan.rollovers, r.lit = true := by
    intro r hr
    have hscan : gAllLit.rolloverScan.rollovers = litRollovers := by
      show (gAllLit.rollovers.foldl _ ((0 : ℤ), ([] : List Rollover))).2 = litRollovers
      show (litRollovers.foldl _ ((0 : ℤ), ([] : List Rollover))).2 = litRollovers
      unfold litRollovers Rollover.check
      simp
    rw [hscan] at hr
    fin_cases hr <;> rfl
  refine ⟨?_, (rollover_spec.2 gAllLit rfl hall).2.1, (rollover_spec.2 gAllLit rfl hall).1⟩
  exact rollover_spec.1 _ _ _ rfl

/-! The dead-centre bumper scenario of C9: a ball at `(175, 251)` falling at
speed 300 straight into the topmost-left bumper, whose centre `(175, 300)`
is 49 pixels below. -/

/-- The scenario ball: dead-centre approach at normal speed 300. -/
def scenarioBall : Ball := Ball.mk (Vec2.mk 175 251) (Vec2.mk 0 300) BALL_RADIUS true

/-- The table's first bumper (line 280). -/
def scenarioBumper : Bumper := Bumper.mk (Vec2.mk (WIDTH * 0.35) 300) 38 150

/-- A game holding just the scenario bumper, ball in play. -/
def gBumperHit : Game := { voidGame with bumpers := [scenarioBumper], ball := scenarioBall }

/-- The epsilon-guarded centre distance `diff.length() + 1e-9` of the
scenario. -/
def dEps : ℝ := 49 + 1e-9

/-- The scenario's circle-circle test: a hit whose normal is the epsilon-
guarded near-unit vector `(0, -49) / dEps`. -/
theorem scenario_res :
    circle_circle_collision (Vec2.mk 175 251) BALL_RADIUS scenarioBumper.pos
        scenarioBumper.radius
      = CircHit.mk true
          ((BALL_RADIUS + scenarioBumper.radius - dEps) • (dEps⁻¹ • Vec2.mk 0 (-49)))
          (dEps⁻¹ • Vec2.mk 0 (-49)) := by
  unfold circle_circle_collision
  dsimp only
  have hdiff : Vec2.mk 175 251 - scenarioBumper.pos = Vec2.mk 0 (-49) := by
    show Vec2.mk 175 251 - Vec2.mk (WIDTH * 0.35) 300 = Vec2.mk 0 (-49)
    unfold WIDTH
    rw [Vec2.ext_iff]
    norm_num
  rw [hdiff]
  have hlen : (Vec2.mk 0 (-49)).length = 49 := by
    unfold Vec2.length Vec2.lengthSq Vec2.dot
    rw [show ((Vec2.mk 0 (-49)).x * (Vec2.mk 0 (-49)).x
        + (Vec2.mk 0 (-49)).y * (Vec2.mk 0 (-49)).y : ℝ) = 49 ^ 2 by norm_num]
    exact Real.sqrt_sq (by norm_num)
  rw [hlen]
  rw [if_pos (by show (49 + 1e-9 : ℝ) < BALL_RADIUS + 38; unfold BALL_RADIUS; norm_num)]
  rfl

/-- The scenario bumper response, for any game whose ball is in the scenario
configuration (in play or not): the outgoing y-velocity carries the epsilon
guard through the reflection and the fixed impulse. -/
theorem scenario_step_vel (g : Game) (hpos : g.ball.pos = Vec2.mk 175 251)
    (hvel : g.ball.vel = Vec2.mk 0 300) (hrad : g.ball.radius = BALL_RADIUS) :
    (g.bumperStep scenarioBumper).ball.vel.y
      = 300 - 1476615 / dEps ^ 2 - 9800 / dEps := by
  unfold Game.bumperStep
  dsimp only
  rw [hpos, hvel, hrad, scenario_res]
  rw [if_pos rfl]
  rw [apply_ite (fun gg : Game => gg.ball.vel.y)]
  dsimp only
  rw [ite_self]
  have hd : (0 : ℝ) < dEps := by unfold dEps; norm_num
  have hdot : Vec2.dot (Vec2.mk 0 300) (dEps⁻¹ • Vec2.mk 0 (-49)) < 0 := by
    unfold Vec2.dot
    simp only [Vec2.smul_x, Vec2.smul_y, Vec2.mk_x, Vec2.mk_y]
    rw [mul_zero, zero_mul, zero_add]
    have h9 : (0:ℝ) < dEps⁻¹ := inv_pos.mpr hd
    nlinarith
  show (reflect (Vec2.mk 0 300) (dEps⁻¹ • Vec2.mk 0 (-49)) RESTI_BALL_BUMPER
      + (200.0 : ℝ) • (dEps⁻¹ • Vec2.mk 0 (-49))).y
    = 300 - 1476615 / dEps ^ 2 - 9800 / dEps
  unfold reflect
  rw [if_pos hdot]
  show (Vec2.mk 0 300).y - ((1.0 + RESTI_BALL_BUMPER)
        * Vec2.dot (Vec2.mk 0 300) (dEps⁻¹ • Vec2.mk 0 (-49)))
        * (dEps⁻¹ • Vec2.mk 0 (-49)).y
      + (200.0 : ℝ) * (dEps⁻¹ • Vec2.mk 0 (-49)).y
    = 300 - 1476615 / dEps ^ 2 - 9800 / dEps
  unfold Vec2.dot RESTI_BALL_BUMPER
  simp only [Vec2.smul_x, Vec2.smul_y, Vec2.mk_x, Vec2.mk_y]
  have hne : dEps ≠ 0 := by unfold dEps; norm_num
  field_simp
  ring

/-- Counterexample to C9 as stated: in the dead-centre scenario the
outgoing normal speed is NOT exactly `300 * 1.05 + 200`; the `1e-9` epsilon
guard in `circle_circle_collision` makes the computed normal slightly
shorter than a unit vector. -/
theorem bumper_scenario_counterexample :
    (circle_circle_collision scenarioBall.pos scenarioBall.radius scenarioBumper.pos
        scenarioBumper.radius).hit = true ∧
      scenarioBall.vel.y = 300 ∧
      -(gBumperHit.handleBumperCollisions.ball.vel.y) ≠ 300 * RESTI_BALL_BUMPER + 200 := by
  refine ⟨?_, rfl, ?_⟩
  · show (circle_circle_collision (Vec2.mk 175 251) BALL_RADIUS scenarioBumper.pos
        scenarioBumper.radius).hit = true
    rw [scenario_res]
  · have hfold : gBumperHit.handleBumperCollisions = gBumperHit.bumperStep scenarioBumper := rfl
    rw [hfold, scenario_step_vel gBumperHit rfl rfl rfl]
    unfold dEps RESTI_BALL_BUMPER
    norm_num

/-- C9 (amended): on a bumper hit the ball is pushed out by the computed
push vector, its velocity is the reflection with the bumper restitution plus
the fixed 200-impulse along the computed normal, and the multiplied score is
added only while in play; in the dead-centre scenario at normal speed 300
the outgoing normal speed equals `300 * 1.05 + 200` up to the `1e-9` epsilon
guard of the collision normal (within `1e-6`). -/
theorem bumper_response_spec :
    (∀ (g : Game) (b : Bumper),
      (circle_circle_collision g.ball.pos g.ball.radius b.pos b.radius).hit = true →
      (g.bumperStep b).ball.pos
          = g.ball.pos + (circle_circle_collision g.ball.pos g.ball.radius b.pos b.radius).push ∧
      (g.bumperStep b).ball.vel
          = reflect g.ball.vel
              (circle_circle_collision g.ball.pos g.ball.radius b.pos b.radius).n
              RESTI_BALL_BUMPER
            + (200.0 : ℝ) • (circle_circle_collision g.ball.pos g.ball.radius b.pos b.radius).n ∧
      (g.ball.in_play = true → (g.bumperStep b).score = g.score + b.score * g.bumper_mult) ∧
      (g.ball.in_play = false → (g.bumperStep b).score = g.score)) ∧
    |(-(gBumperHit.handleBumperCollisions.ball.vel.y)) - (300 * RESTI_BALL_BUMPER + 200)|
      < 1e-6 := by
  constructor
  · intro g b h
    unfold Game.bumperStep
    dsimp only
    rw [if_pos h]
    refine ⟨?_, ?_, ?_, ?_⟩
    · rw [apply_ite (fun gg : Game => gg.ball.pos)]
      dsimp only
      rw [ite_self]
    · rw [apply_ite (fun gg : Game => gg.ball.vel)]
      dsimp only
      rw [ite_self]
    · intro hin
      rw [if_pos (show ({ g with ball := { g.ball with
          pos := g.ball.pos + (circle_circle_collision g.ball.pos g.ball.radius b.pos b.radius).push,
          vel := reflect g.ball.vel
              (circle_circle_collision g.ball.pos g.ball.radius b.pos b.radius).n
              RESTI_BALL_BUMPER
            + (200.0 : ℝ) • (circle_circle_collision g.ball.pos g.ball.radius b.pos b.radius).n } }
          : Game).ball.in_play = true from hin)]
    · intro hin
      rw [if_neg (show ¬({ g with ball := { g.ball with
          pos := g.ball.pos + (circle_circle_collision g.ball.pos g.ball.radius b.pos b.radius).push,
          vel := reflect g.ball.vel
              (circle_circle_collision g.ball.pos g.ball.radius b.pos b.radius).n
              RESTI_BALL_BUMPER
            + (200.0 : ℝ) • (circle_circle_collision g.ball.pos g.ball.radius b.pos b.radius).n } }
          : Game).ball.in_play = true by simp [hin])]
  · have hfold : gBumperHit.handleBumperCollisions = gBumperHit.bumperStep scenarioBumper := rfl
    rw [hfold, scenario_step_vel gBumperHit rfl rfl rfl]
    unfold dEps RESTI_BALL_BUMPER
    rw [abs_lt]
    constructor <;> norm_num

/-- Witness for the amended C9: the general response law instantiated at the
concrete scenario hit. -/
theorem bumper_response_spec_witness :
    (gBumperHit.bumperStep scenarioBumper).ball.vel
        = reflect gBumperHit.ball.vel
            (circle_circle_collision gBumperHit.ball.pos gBumperHit.ball.radius
              scenarioBumper.pos scenarioBumper.radius).n RESTI_BALL_BUMPER
          + (200.0 : ℝ) • (circle_circle_collision gBumperHit.ball.pos gBumperHit.ball.radius
              scenarioBumper.pos scenarioBumper.radius).n := by
  have hhit : (circle_circle_collision gBumperHit.ball.pos gBumperHit.ball.radius
      scenarioBumper.pos scenarioBumper.radius).hit = true := by
    show (circle_circle_collision (Vec2.mk 175 251) BALL_RADIUS scenarioBumper.pos
        scenarioBumper.radius).hit = true
    rw [scenario_res]
  exact (bumper_response_spec.1 gBumperHit scenarioBumper hhit).2.1

/-- The scenario game with the ball NOT in play. -/
def gIdleHit : Game :=
  { voidGame with
    bumpers := [scenarioBumper]
    ball := Ball.mk (Vec2.mk 175 251) (Vec2.mk 0 300) BALL_RADIUS false }

/-- Counterexample to C5 as stated: with the ball not in play, the bumper
handler still changes the ball's velocity (and position) — only the score
and event side effects are suppressed. -/
theorem idle_bumper_counterexample :
    gIdleHit.ball.in_play = false ∧
      gIdleHit.handleBumperCollisions.ball.vel ≠ gIdleHit.ball.vel := by
  refine ⟨rfl, ?_⟩
  have hfold : gIdleHit.handleBumperCollisions = gIdleHit.bumperStep scenarioBumper := rfl
  have hy : (gIdleHit.bumperStep scenarioBumper).ball.vel.y
      = 300 - 1476615 / dEps ^ 2 - 9800 / dEps := scenario_step_vel gIdleHit rfl rfl rfl
  rw [hfold]
  intro heq
  rw [heq] at hy
  have h300 : gIdleHit.ball.vel.y = 300 := rfl
  rw [h300] at hy
  unfold dEps at hy
  norm_num at hy

/-- One wall pass keeps the score and the idle flag of a not-in-play ball. -/
theorem wallStep_idle (g : Game) (w : Wall) (h : g.ball.in_play = false) :
    (g.wallStep w).score = g.score ∧ (g.wallStep w).ball.in_play = false := by
  unfold Game.wallStep
  dsimp only
  split
  · rw [if_neg (by simp [h])]
    exact ⟨rfl, h⟩
  · exact ⟨rfl, h⟩

/-- The boundary clamps never touch the score or the idle flag. -/
theorem boundaryClamp_score (g : Game) :
    g.boundaryClamp.score = g.score ∧ g.boundaryClamp.ball.in_play = g.ball.in_play := by
  unfold Game.boundaryClamp
  dsimp only
  split <;> split <;> split <;> exact ⟨rfl, rfl⟩

/-- One bumper pass keeps the score and the idle flag of a not-in-play
ball. -/
theorem bumperStep_idle (g : Game) (b : Bumper) (h : g.ball.in_play = false) :
    (g.bumperStep b).score = g.score ∧ (g.bumperStep b).ball.in_play = false := by
  unfold Game.bumperStep
  dsimp only
  split
  · rw [if_neg (by simp [h])]
    exact ⟨rfl, h⟩
  · exact ⟨rfl, h⟩

/-- One flipper-collision call keeps the score and the idle flag of a
not-in-play ball. -/
theorem flipperCollision_idle (g : Game) (f : Flipper) (h : g.ball.in_play = false) :
    (g.handleFlipperCollision f).score = g.score ∧
      (g.handleFlipperCollision f).ball.in_play = false := by
  unfold Game.handleFlipperCollision
  dsimp only
  split
  · rw [if_neg (by simp [h])]
    exact ⟨rfl, h⟩
  · exact ⟨rfl, h⟩

/-- The rollover scan awards nothing while the ball is not in play. -/
theorem rolloverScan_idle_score (g : Game) (h : g.ball.in_play = false) :
    g.rolloverScan.score = g.score := by
  unfold Game.rolloverScan
  dsimp only
  have h0 : (g.rollovers.foldl
      (fun (acc : ℤ × List Rollover) r =>
        let res := Rollover.check r g.ball.pos g.ball.radius
        (acc.1 + (if res.1 = true ∧ g.ball.in_play = true then r.score else 0),
          acc.2 ++ [res.2]))
      (0, [])).1 = 0 := by
    apply foldl_inv _ (fun acc : ℤ × List Rollover => acc.1 = 0)
    · intro b a hb
      dsimp only
      rw [if_neg (fun hc => by rw [h] at hc; exact Bool.false_ne_true hc.2), hb, add_zero]
    · rfl
  rw [h0, add_zero]

/-- C5 (amended): while the ball is not in play, the wall, bumper, rollover
and flipper handlers never change the score (all scoring and event side
effects are suppressed) and the physics step leaves the idle ball untouched;
the handlers' positional and velocity responses, however, are still applied
(see the counterexample), so only the scoring is inert. -/
theorem idle_score_frozen (g : Game) (dt : ℝ) (h : g.ball.in_play = false) :
    g.handleWallCollisions.score = g.score ∧
    g.handleBumperCollisions.score = g.score ∧
    g.handleRollovers.score = g.score ∧
    g.flipperCollisions.score = g.score ∧
    g.ball.applyPhysics dt = g.ball := by
  refine ⟨?_, ?_, ?_, ?_, ?_⟩
  · unfold Game.handleWallCollisions
    have hfold : (g.walls.foldl Game.wallStep g).score = g.score ∧
        (g.walls.foldl Game.wallStep g).ball.in_play = false :=
      foldl_inv Game.wallStep
        (fun g' => g'.score = g.score ∧ g'.ball.in_play = false)
        (fun b a hb => by
          have h2 := wallStep_idle b a hb.2
          exact ⟨h2.1.trans hb.1, h2.2⟩)
        g.walls g ⟨rfl, h⟩
    exact (boundaryClamp_score _).1.trans hfold.1
  · exact (foldl_inv Game.bumperStep
      (fun g' => g'.score = g.score ∧ g'.ball.in_play = false)
      (fun b a hb => by
        have h2 := bumperStep_idle b a hb.2
        exact ⟨h2.1.trans hb.1, h2.2⟩)
      g.bumpers g ⟨rfl, h⟩).1
  · unfold Game.handleRollovers Game.rolloverBonus
    rw [if_neg (fun hc => by
      have : g.rolloverScan.ball.in_play = false := h
      rw [this] at hc
      exact Bool.false_ne_true hc.1)]
    exact rolloverScan_idle_score g h
  · unfold Game.flipperCollisions
    have h1 := flipperCollision_idle g g.left_flipper h
    have h2 := flipperCollision_idle (g.handleFlipperCollision g.left_flipper)
      (g.handleFlipperCollision g.left_flipper).right_flipper h1.2
    exact h2.1.trans h1.1
  · unfold Ball.applyPhysics
    rw [if_pos h]

/-- Witness for the amended C5 at a concrete idle state with the full
table. -/
theorem idle_score_frozen_witness :
    gIdleHit.handleBumperCollisions.score = gIdleHit.score ∧
      gIdleHit.ball.applyPhysics 1 = gIdleHit.ball :=
  ⟨(idle_score_frozen gIdleHit 1 rfl).2.1, (idle_score_frozen gIdleHit 1 rfl).2.2.2.2⟩

/-- C3: whenever the in-play ball is past the drain threshold when
`Game.update`'s drain check runs (the pipeline state `preDrain`): with
ball-save active the ball count is kept and the ball respawns idle at the
launch lane with the save window cleared; with ball-save inactive the ball
count drops by exactly one, and either it reaches zero and the game goes to
game over exactly once with the high score (the value `save_high_score`
persists) becoming `max` of the old high score and the session score, or the
ball respawns idle at the launch lane for the next ball. -/
theorem drain_spec (g : Game) (dt : ℝ)
    (hp : g.paused = false) (hgo : g.game_over = false)
    (hin : g.ball.in_play = true)
    (hdrain : HEIGHT + 40 < (g.preDrain dt).ball.pos.y - (g.preDrain dt).ball.radius) :
    ((g.preDrain dt).ball_save_active = true →
      (g.update dt).balls_left = g.balls_left ∧
      (g.update dt).ball = initialBall ∧
      (g.update dt).ball_save_active = false ∧
      (g.update dt).ball_save_timer = 0) ∧
    ((g.preDrain dt).ball_save_active = false →
      (g.update dt).balls_left = g.balls_left - 1 ∧
      (g.balls_left - 1 ≤ 0 →
        (g.update dt).game_over = true ∧
        (g.update dt).high_score = max g.high_score (g.preDrain dt).score ∧
        (g.update dt).ball.in_play = false) ∧
      (0 < g.balls_left - 1 →
        (g.update dt).game_over = false ∧
        (g.update dt).ball = initialBall ∧
        (g.update dt).high_score = g.high_score)) := by
  have hcore := preDrain_core g dt
  have hup : g.update dt = (g.preDrain dt).drainCheck := by
    unfold Game.update
    rw [if_neg ?h]
    case h =>
      rintro (hc | hc)
      · rw [hp] at hc
        exact Bool.false_ne_true hc
      · rw [hgo] at hc
        exact Bool.false_ne_true hc
  have hpin : (g.preDrain dt).ball.in_play = true := by rw [hcore.1, hin]
  have hcond : (g.preDrain dt).ball.in_play = true ∧
      HEIGHT + 40 < (g.preDrain dt).ball.pos.y - (g.preDrain dt).ball.radius :=
    ⟨hpin, hdrain⟩
  constructor
  · intro hsave
    have heq : g.update dt = Game.resetBall
        { g.preDrain dt with ball := { (g.preDrain dt).ball with in_play := false } } := by
      rw [hup]
      unfold Game.drainCheck
      rw [if_pos hcond, if_pos hsave]
    rw [heq]
    refine ⟨hcore.2.1, rfl, rfl, ?_⟩
    show (0.0 : ℝ) = 0
    norm_num
  · intro hsave
    have hnotsave : ¬((g.preDrain dt).ball_save_active = true) := by
      rw [hsave]
      exact Bool.false_ne_true
    by_cases hbl : g.balls_left - 1 ≤ 0
    · have hbl2 : (g.preDrain dt).balls_left - 1 ≤ 0 := by rw [hcore.2.1]; exact hbl
      have heq : g.update dt =
          { g.preDrain dt with
            balls_left := (g.preDrain dt).balls_left - 1,
            ball := { (g.preDrain dt).ball with in_play := false },
            just_lost := true,
            game_over := true,
            high_score := max (g.preDrain dt).high_score (g.preDrain dt).score } := by
        rw [hup]
        unfold Game.drainCheck
        rw [if_pos hcond, if_neg hnotsave]
        dsimp only
        rw [if_pos hbl2]
      rw [heq]
      refine ⟨?_, ?_, ?_⟩
      · show (g.preDrain dt).balls_left - 1 = g.balls_left - 1
        rw [hcore.2.1]
      · intro _
        refine ⟨rfl, ?_, rfl⟩
        show max (g.preDrain dt).high_score (g.preDrain dt).score
            = max g.high_score (g.preDrain dt).score
        rw [hcore.2.2.1]
      · intro h0
        exact absurd hbl (not_le.mpr h0)
    · have hbl2 : ¬((g.preDrain dt).balls_left - 1 ≤ 0) := by rw [hcore.2.1]; exact hbl
      have heq : g.update dt = Game.resetBall
          { g.preDrain dt with
            balls_left := (g.preDrain dt).balls_left - 1,
            ball := { (g.preDrain dt).ball with in_play := false },
            just_lost := true } := by
        rw [hup]
        unfold Game.drainCheck
        rw [if_pos hcond, if_neg hnotsave]
        dsimp only
        rw [if_neg hbl2]
      rw [heq]
      refine ⟨?_, ?_, ?_⟩
      · show (g.preDrain dt).balls_left - 1 = g.balls_left - 1
        rw [hcore.2.1]
      · intro h0
        exact absurd h0 hbl
      · intro _
        refine ⟨?_, rfl, ?_⟩
        · show (g.preDrain dt).game_over = false
          rw [hcore.2.2.2, hgo]
        · show (g.preDrain dt).high_score = g.high_score
          exact hcore.2.2.1

/-- The ball-save countdown never touches the ball itself. -/
theorem ballSaveStep_ball (g : Game) (dt : ℝ) : (g.ballSaveStep dt).ball = g.ball := by
  unfold Game.ballSaveStep
  dsimp only
  split
  · split <;> rfl
  · rfl

/-- The bumper-multiplier countdown never touches the ball. -/
theorem bumperTimerStep_ball (g : Game) (dt : ℝ) : (g.bumperTimerStep dt).ball = g.ball := by
  unfold Game.bumperTimerStep
  dsimp only
  split
  · split <;> rfl
  · rfl

/-- The tilt countdown never touches the ball. -/
theorem tiltStep_ball (g : Game) (dt : ℝ) : (g.tiltStep dt).ball = g.ball := by
  unfold Game.tiltStep
  dsimp only
  split
  · split <;> rfl
  · rfl

/-- The rollover handler never touches the ball. -/
theorem handleRollovers_ball (g : Game) : g.handleRollovers.ball = g.ball := by
  unfold Game.handleRollovers Game.rolloverBonus
  split <;> rfl

/-- The rollover handler never touches the left flipper. -/
theorem handleRollovers_left (g : Game) : g.handleRollovers.left_flipper = g.left_flipper := by
  unfold Game.handleRollovers Game.rolloverBonus
  split <;> rfl

/-- The rollover handler never touches the right flipper. -/
theorem handleRollovers_right (g : Game) : g.handleRollovers.right_flipper = g.right_flipper := by
  unfold Game.handleRollovers Game.rolloverBonus
  split <;> rfl

/-- An in-play ball far below the drain threshold, at rest. -/
def drainBall : Ball := Ball.mk (Vec2.mk 200 100000) (Vec2.mk 0 0) BALL_RADIUS true

/-- An empty-table game about to drain its ball inside the save window. -/
def gDrain : Game :=
  { voidGame with
    ball := drainBall
    ball_save_active := true
    ball_save_timer := BALL_SAVE_TIME }

/-- With `dt = 0` the physics step fixes the drain scenario ball. -/
theorem drainBall_applyPhysics : drainBall.applyPhysics 0 = drainBall := by
  unfold Ball.applyPhysics
  rw [if_neg (by simp [drainBall] : ¬(drainBall.in_play = false))]
  have hv2 : drainBall.velAfterDrag 0 = Vec2.mk 0 0 := by
    unfold Ball.velAfterDrag
    rw [zero_mul, Real.rpow_zero]
    rw [Vec2.ext_iff]
    constructor
    · show (1 : ℝ) * drainBall.vel.x = 0
      show (1 : ℝ) * 0 = 0
      norm_num
    · show (1 : ℝ) * (drainBall.vel.y + GRAVITY * 0) = 0
      show (1 : ℝ) * ((0 : ℝ) + GRAVITY * 0) = 0
      norm_num
  dsimp only
  rw [hv2]
  have hsp : (Vec2.mk 0 0).length = 0 := by
    unfold Vec2.length Vec2.lengthSq Vec2.dot
    rw [show ((Vec2.mk 0 0).x * (Vec2.mk 0 0).x + (Vec2.mk 0 0).y * (Vec2.mk 0 0).y : ℝ)
        = 0 by norm_num]
    exact Real.sqrt_zero
  rw [hsp]
  rw [if_neg (by unfold MAX_BALL_SPEED; norm_num)]
  rw [show (drainBall.pos + (0 : ℝ) • Vec2.mk 0 0) = drainBall.pos by
    rw [Vec2.ext_iff]
    constructor <;> · simp]
  rfl

/-- A zero-length flipper at the origin misses the drain scenario ball. -/
theorem trivial_flipper_no_hit (gg : Game) (f : Flipper) (hball : gg.ball = drainBall)
    (hpiv : f.pivot = Vec2.mk 0 0) (hlen : f.length = 0) :
    gg.handleFlipperCollision f = gg := by
  apply handleFlipperCollision_no_hit
  apply circle_line_no_hit
  · show f.pivot.y + gg.ball.radius ≤ gg.ball.pos.y
    rw [hball, hpiv]
    show (0 : ℝ) + BALL_RADIUS ≤ 100000
    unfold BALL_RADIUS
    norm_num
  · show (f.pivot + f.length • Vec2.mk (Real.cos f.angle) (-(Real.sin f.angle))).y
        + gg.ball.radius ≤ gg.ball.pos.y
    rw [hball, hpiv, hlen]
    simp only [Vec2.add_y, Vec2.smul_y, Vec2.mk_y, zero_mul, add_zero]
    show (0 : ℝ) + BALL_RADIUS ≤ 100000
    unfold BALL_RADIUS
    norm_num

/-- Through the whole pre-drain pipeline at `dt = 0`, the drain scenario
keeps its ball and its active save window. -/
theorem gDrain_facts :
    (gDrain.preDrain 0).ball = drainBall ∧ (gDrain.preDrain 0).ball_save_active = true := by
  unfold Game.preDrain
  have hA : ((gDrain.flipperUpdates 0).physicsStep 0).ball = drainBall :=
    drainBall_applyPhysics
  set a2 := (gDrain.flipperUpdates 0).physicsStep 0 with ha2
  have hW : a2.handleWallCollisions = a2 := by
    show (a2.walls.foldl Game.wallStep a2).boundaryClamp = a2
    rw [show a2.walls.foldl Game.wallStep a2 = a2 from rfl]
    apply boundaryClamp_id
    · rw [hA]
      show ¬((200 : ℝ) - BALL_RADIUS < 74)
      unfold BALL_RADIUS
      norm_num
    · rw [hA]
      show ¬(WIDTH - 160 < (200 : ℝ) + BALL_RADIUS)
      unfold WIDTH BALL_RADIUS
      norm_num
    · rw [hA]
      show ¬((100000 : ℝ) - BALL_RADIUS < 120 + 16)
      unfold BALL_RADIUS
      norm_num
  rw [hW]
  have hBump : a2.handleBumperCollisions = a2 := rfl
  rw [hBump]
  set a5 := a2.handleRollovers with ha5
  have hRball : a5.ball = drainBall := by rw [ha5, handleRollovers_ball, hA]
  have hRleft : a5.left_flipper = trivialFlipper.update 0 := by
    rw [ha5, handleRollovers_left]
    rfl
  have hRright : a5.right_flipper = trivialFlipper.update 0 := by
    rw [ha5, handleRollovers_right]
    rfl
  have hFC : a5.flipperCollisions = a5 := by
    unfold Game.flipperCollisions
    dsimp only
    rw [trivial_flipper_no_hit _ _ hRball (by rw [hRleft]; rfl) (by rw [hRleft]; rfl)]
    rw [trivial_flipper_no_hit _ _ hRball (by rw [hRright]; rfl) (by rw [hRright]; rfl)]
  rw [hFC]
  set a7 := a5.bumperTimerStep 0 with ha7
  set a8 := a7.tiltStep 0 with ha8
  have hT2ball : a8.ball = drainBall := by
    rw [ha8, tiltStep_ball, ha7, bumperTimerStep_ball, hRball]
  have hT2bsa : a8.ball_save_active = true := by
    rw [ha8, (stepCore_tiltStep _ 0).2.2.2.2.1, ha7, (stepCore_bumperTimerStep _ 0).2.2.2.2.1,
      ha5, (stepCore_handleRollovers _).2.2.2.2.1]
    rfl
  have hT2bst : a8.ball_save_timer = BALL_SAVE_TIME := by
    rw [ha8, (stepCore_tiltStep _ 0).2.2.2.2.2.1, ha7,
      (stepCore_bumperTimerStep _ 0).2.2.2.2.2.1,
      ha5, (stepCore_handleRollovers _).2.2.2.2.2.1]
    rfl
  constructor
  · rw [ballSaveStep_ball, hT2ball]
  · unfold Game.ballSaveStep
    dsimp only
    rw [if_pos hT2bsa]
    rw [if_neg (by rw [hT2bst]; unfold BALL_SAVE_TIME; norm_num)]
    exact hT2bsa

/-- Witness for C3: the drain scenario consumes the ball save, keeping the
ball count and respawning the ball idle. -/
theorem drain_spec_witness :
    (gDrain.preDrain 0).ball_save_active = true ∧
      (gDrain.update 0).balls_left = gDrain.balls_left ∧
      (gDrain.update 0).ball = initialBall := by
  have hfacts := gDrain_facts
  have hdrain : HEIGHT + 40
      < (gDrain.preDrain 0).ball.pos.y - (gDrain.preDrain 0).ball.radius := by
    rw [hfacts.1]
    show HEIGHT + 40 < (100000 : ℝ) - BALL_RADIUS
    unfold HEIGHT BALL_RADIUS
    norm_num
  have h := drain_spec gDrain 0 rfl rfl rfl hdrain
  exact ⟨hfacts.2, (h.1 hfacts.2).1, (h.1 hfacts.2).2.1⟩

end Pinball
